import Mathlib

/-!
Shallow embedding of the bootloader-configuration and image-staging pipeline
of `mauimic/imager/livecd.py` (classes `LiveImageCreatorBase` and
`x86LiveImageCreator`), together with theorems settling the frozen claims
about that code.

Modelling conventions:
* The root filesystem and the host filesystem are finite lists of path
  strings; `os.path.exists` / `os.path.isfile` become list membership.
* The resolved kickstart option set (timeout, default kernel, menu string,
  labels, skip flags) is a read-only `Config` record, as the specification
  describes it (an opaque configuration record produced by the excluded
  kickstart collaborator).
* External tool invocations (`genisoimage`, `isohybrid`) are black boxes
  characterised only by availability flags and exit codes carried in the
  `Config`, exactly as the specification treats them.
* Python exceptions become `Except CErr`; `CreatorError` messages are kept
  verbatim.  An access to a possibly-unbound local (`path` in
  `__copy_syslinux_files`) is modelled as `CErr.nameError`.
* Strings are Lean `String`s; all text templates are transcribed verbatim
  from the source.  String searching helpers work on `String.data` with
  structural recursion so that concrete instances evaluate by `decide`.
-/

set_option maxRecDepth 100000

namespace MauiLive

/-- Boolean test that `p` is a leading piece of `s` (character-list level). -/
def hasPre (s p : String) : Bool :=
  p.data.isPrefixOf s.data

/-- Boolean test that `p` is a trailing piece of `s` (character-list level). -/
def hasSuf (s p : String) : Bool :=
  p.data.isSuffixOf s.data

/-- Boolean substring test at the character-list level, by structural
recursion, so it evaluates inside `decide`. -/
def listSub (p : List Char) : List Char → Bool
  | [] => p.isPrefixOf []
  | c :: rest => p.isPrefixOf (c :: rest) || listSub p rest

/-- Boolean test that `p` occurs somewhere inside `s`. -/
def hasSub (s p : String) : Bool :=
  listSub p.data s.data

/-- Python `s[n:]`. -/
def strDrop (s : String) (n : Nat) : String :=
  String.mk (s.data.drop n)

/-- Python `s[:-n]`. -/
def strDropRight (s : String) (n : Nat) : String :=
  String.mk (s.data.take (s.data.length - n))

/-- Concatenation of a list of strings (the `for s in l: cfg += s` idiom). -/
def joinStr : List String → String
  | [] => ""
  | s :: rest => s ++ joinStr rest

/-- Error outcomes of the pipeline.  `creatorError` carries the verbatim
`CreatorError` message from the source; `nameError` models a Python
`UnboundLocalError`; `copyFailed` models the `IOError` that
`shutil.copyfile` raises when its source file does not exist. -/
inductive CErr where
  | creatorError (msg : String)
  | nameError
  | copyFailed (path : String)
deriving DecidableEq, Repr

/-- The resolved inputs of one pipeline run: the kickstart-derived option
record (spec: "upstream configuration object"), the root filesystem tree,
the host filesystem, and the observable behaviour of the external tools. -/
structure Config where
  /-- `self._timeout`: bootloader timeout from kickstart, in seconds. -/
  timeout : Nat
  /-- `self._default_kernel`: configured default kernel package name
  (`None` when absent). -/
  default_kernel : Option String
  /-- `self.product`. -/
  product : String
  /-- `self.title`. -/
  title : String
  /-- `self.fslabel` (ISO volume label). -/
  fslabel : String
  /-- `self.name` (output image base name). -/
  name : String
  /-- `self._get_kernel_versions()`: ordered mapping from kernel package
  name to the list of kernel release versions found in the root. -/
  kernels : List (String × List String)
  /-- Kernel argument string resolved from the kickstart
  (`kickstart.get_kernel_args(self.ks, default)`). -/
  kernel_args : String
  /-- Paths present inside the mounted root filesystem (`self._instroot`),
  written without the instroot prefix. -/
  instroot_files : List String
  /-- Paths present on the build host (used by `__implant_md5sum`). -/
  host_files : List String
  /-- Whether `find_binary_path("isohybrid")` succeeds. -/
  isohybrid_found : Bool
  /-- Exit status of the `isohybrid` invocation. -/
  isohybrid_exit : Nat
  /-- Exit status of the `genisoimage` invocation. -/
  geniso_exit : Nat
  /-- `self.pack_to`: optional repackaging target name. -/
  pack_to : Option String
  /-- `self.skip_minimize`. -/
  skip_minimize : Bool
  /-- `self.skip_compression`. -/
  skip_compression : Bool
  /-- `rpmmisc.getBaseArch()` result ("i386" or "x86_64" for this class). -/
  basearch : String

/-- `os.path.exists(self._instroot + p)` / `os.path.isfile`: membership in
the root filesystem tree. -/
def fileExists (c : Config) (p : String) : Bool :=
  c.instroot_files.contains p

/-- `LiveImageCreatorBase._has_checkisomd5` (livecd.py 165-174). -/
def has_checkisomd5 (c : Config) : Bool :=
  fileExists c "/usr/lib/anaconda-runtime/checkisomd5" ||
  fileExists c "/usr/bin/checkisomd5"

/-- `LiveImageCreatorBase._get_kernel_options` (livecd.py 128-150): the
kickstart-resolved argument string, with " splash" appended when plymouth
is installed in the root and the string does not already contain it. -/
def get_kernel_options (c : Config) : String :=
  let r := c.kernel_args
  if (fileExists c "/usr/bin/plymouth" || fileExists c "/usr/bin/ply-image") &&
      !(hasSub r " splash") then
    r ++ " splash"
  else
    r

/-- `x86LiveImageCreator.__is_default_kernel` (livecd.py 431-441).
`kernels` is the kernel-package dictionary, so `len(kernels) == 1` counts
packages, not versions; comparisons against a `None` default kernel are
False in Python, hence the `Option` comparisons. -/
def is_default_kernel (c : Config) (kernel : String) : Bool :=
  if c.kernels.length == 1 then true
  else if some kernel == c.default_kernel then true
  else if hasPre kernel "kernel-" && (some (strDrop kernel 7) == c.default_kernel) then true
  else false

/-- `x86LiveImageCreator.__find_syslinux_menu` (livecd.py 356-363): first
menu module of the preference list found in either system location. -/
def find_syslinux_menu (c : Config) : Except CErr String :=
  match ["vesamenu.c32", "menu.c32"].find? (fun menu =>
      fileExists c ("/usr/lib/syslinux/" ++ menu) ||
      fileExists c ("/usr/share/syslinux/" ++ menu)) with
  | some menu => .ok menu
  | none => .error (.creatorError "syslinux not installed : no suitable *menu.c32 found")

/-- `x86LiveImageCreator.__find_syslinux_mboot` (livecd.py 365-372): the
mboot module is needed only when a xen hypervisor image is present
(`glob("/boot/xen.gz*")`). -/
def find_syslinux_mboot (c : Config) : Option String :=
  if c.instroot_files.any (fun p => hasPre p "/boot/xen.gz") then
    some "mboot.c32"
  else
    none

/-- One iteration of the `for f in files` loop of
`x86LiveImageCreator.__copy_syslinux_files` (livecd.py 374-388).  The
state carries Python's local variable `path` (`none` while still unbound)
as a (directory, filename) pair whose concatenation is the Python string,
plus the staged destination paths so far.  Note the faithful bug: when a
file exists in neither location, `path` silently keeps its previous value;
on the first file that is an unbound-local error. -/
def syslinux_copy_step (c : Config) (st : Option (String × String) × List String)
    (f : String) : Except CErr (Option (String × String) × List String) :=
  let path :=
    if fileExists c ("/usr/lib/syslinux/" ++ f) then some ("/usr/lib/syslinux/", f)
    else if fileExists c ("/usr/share/syslinux/" ++ f) then some ("/usr/share/syslinux/", f)
    else st.1
  match path with
  | none => .error .nameError
  | some (d, g) =>
    if fileExists c (d ++ g) then
      .ok (some (d, g), st.2 ++ ["isolinux/" ++ g])
    else
      .error (.creatorError ("syslinux not installed : " ++ d ++ g ++ " not found"))

/-- `x86LiveImageCreator.__copy_syslinux_files` (livecd.py 374-388):
returns the destination paths staged under the ISO directory. -/
def copy_syslinux_files (c : Config) (menu : String) (mboot : Option String) :
    Except CErr (List String) := do
  let files := ["isolinux.bin", "ldlinux.c32", "libcom32.c32", "libutil.c32", menu] ++
    (match mboot with | some m => [m] | none => [])
  let r ← files.foldlM (syslinux_copy_step c) (none, [])
  return r.2

/-- `x86LiveImageCreator.__copy_syslinux_background` (livecd.py 390-404):
true (and `splash.png` staged) when either candidate splash image exists. -/
def copy_syslinux_background (c : Config) : Bool :=
  fileExists c "/usr/share/anaconda/boot/syslinux-vesa-splash.png" ||
  fileExists c "/usr/lib/anaconda-runtime/syslinux-vesa-splash.png"

/-- Result of `x86LiveImageCreator.__copy_kernel_and_initramfs` for one
kernel version: the staged paths, the xen/dracut classification and the
warnings emitted. -/
structure CopyKI where
  staged : List String
  isXen : Bool
  isDracut : Bool
  warns : List String
deriving DecidableEq, Repr

/-- Modelled from the spec: `msger.error` belongs to the host framework
(`mic`), which is not part of this repository; per the specification
(section 4.1 design note, "source treats this as non-fatal logging") it
logs the message and the caller continues. -/
def msger_error (msg : String) : List String :=
  [msg]

/-- `x86LiveImageCreator.__copy_kernel_and_initramfs` (livecd.py 406-429):
copy `vmlinuz-<version>` to `isolinux/vmlinuz<index>` (missing source
raises), prefer the dracut `initramfs-` artifact over legacy `initrd-`
(neither present logs via `msger.error` and stages nothing), and stage the
xen hypervisor image when present. -/
def copy_kernel_and_initramfs (c : Config) (version index : String) :
    Except CErr CopyKI :=
  if !(fileExists c ("/boot/vmlinuz-" ++ version)) then
    .error (.copyFailed ("/boot/vmlinuz-" ++ version))
  else
    let s0 := ["isolinux/vmlinuz" ++ index]
    let initrdPart :=
      if fileExists c ("/boot/initramfs-" ++ version ++ ".img") then
        (["isolinux/initrd" ++ index ++ ".img"], true, ([] : List String))
      else if fileExists c ("/boot/initrd-" ++ version ++ ".img") then
        (["isolinux/initrd" ++ index ++ ".img"], false, ([] : List String))
      else
        (([] : List String), false,
         msger_error ("No initrd or initramfs found for " ++ version))
    let xenPart :=
      if fileExists c ("/boot/xen.gz-" ++ strDropRight version 3) then
        (["isolinux/xen" ++ index ++ ".gz"], true)
      else
        (([] : List String), false)
    .ok { staged := s0 ++ initrdPart.1 ++ xenPart.1
          isXen := xenPart.2
          isDracut := initrdPart.2.1
          warns := initrdPart.2.2 }

/-- `x86LiveImageCreator.__get_basic_syslinux_config` (livecd.py 443-479),
transcribed verbatim; the caller passes `self._timeout * 10` for the
timeout slot. -/
def get_basic_syslinux_config (menu background title : String) (timeout : Nat) : String :=
  "\ndefault " ++ menu ++ "\n" ++
  "timeout " ++ Nat.repr timeout ++ "\n" ++
  ("\n" ++
  "menu background " ++ background ++ "\n" ++
  "menu autoboot Starting " ++ title ++ " in # second\x7b,s\x7d. Press any key to interrupt.\n" ++
  "\n" ++
  "menu clear\n" ++
  "menu title " ++ title ++ "\n" ++
  "menu width 78\n" ++
  "menu margin 4\n" ++
  "menu rows 7\n" ++
  "menu vshift 10\n" ++
  "menu tabmsgrow 14\n" ++
  "menu cmdlinerow 14\n" ++
  "menu helpmsgrow 16\n" ++
  "menu helpmsgendrow 29\n" ++
  "\n" ++
  "# Refer to http://syslinux.zytor.com/wiki/index.php/Doc/menu\n" ++
  "\n" ++
  "menu color border * #00000000 #00000000 none\n" ++
  "menu color sel 0 #ff3a6496 #00000000 none\n" ++
  "menu color title 0 #ff7ba3d0 #00000000 none\n" ++
  "menu color tabmsg 0 #ff3a6496 #00000000 none\n" ++
  "menu color unsel 0 #ff347ead #00000000 none\n" ++
  "menu color hotsel 0 #ff64b0ea #00000000 none\n" ++
  "menu color hotkey 0 #ffffffff #00000000 none\n" ++
  "menu color help 0 #993677bc #00000000 none\n" ++
  "menu color scrollbar 0 #ffffffff #ff355594 none\n" ++
  "menu color timeout 0 #ff999999 #00000000 none\n" ++
  "menu color timeout_msg 0 #ff444b54 #00000000 none\n" ++
  "menu color cmdmark 0 #844bb2e5 #00000000 none\n" ++
  "menu color cmdline 0 #ffffffff #00000000 none\n" ++
  "\n" ++
  "menu tabmsg Press Tab for full configuration options on menu items.\n")

/-- `x86LiveImageCreator.__get_image_stanza` (livecd.py 481-506): one boot
stanza.  `rootlabel` is derived from `fslabel` by boot style; the xen
template chains through `mboot.c32`; the help block is appended only when
the help text is non-empty (Python truthiness of `args.get("help")`). -/
def get_image_stanza (is_xen isDracut : Bool)
    (fslabel isofstype liveargs long short extra hlp index : String) : String :=
  let rootlabel :=
    if isDracut then "live:CDLABEL=" ++ fslabel else "CDLABEL=" ++ fslabel
  let body :=
    if !is_xen then
      "label " ++ short ++ "\n" ++
      "  menu label " ++ long ++ "\n" ++
      "  kernel vmlinuz" ++ index ++ "\n" ++
      "  append initrd=initrd" ++ index ++ ".img root=" ++ rootlabel ++
        " rootfstype=" ++ isofstype ++ " " ++ liveargs ++ (" " ++ extra ++ "\n")
    else
      "label " ++ short ++ "\n" ++
      "  menu label " ++ long ++ "\n" ++
      "  kernel mboot.c32\n" ++
      "  append xen" ++ index ++ ".gz --- vmlinuz" ++ index ++ " root=" ++ rootlabel ++
        " rootfstype=" ++ isofstype ++ " " ++ liveargs ++ " " ++ extra ++
        (" --- initrd" ++ index ++ ".img\n")
  if hlp != "" then
    body ++ "  text help\n      " ++ hlp ++ "\n  endtext\n"
  else
    body

/-- One discovered kernel variant (spec data model "KernelVariant"),
recording what `__get_image_stanzas` learned about it. -/
structure VInfo where
  kernel : String
  version : String
  idx : Nat
  isXen : Bool
  isDracut : Bool
deriving DecidableEq, Repr

/-- Accumulated result of the `__get_image_stanzas` loop: the three stanza
lists, the per-variant records, all staged artifact paths and warnings. -/
structure StanzaAcc where
  linux : List String
  basic : List String
  check : List (Option String)
  variants : List VInfo
  staged : List String
  warnings : List String
deriving DecidableEq, Repr

/-- Kernel enumeration order of `((k,v) for k in kernels for v in kernels[k])`:
every version of every package, in discovery order. -/
def variantsOf : List (String × List String) → List (String × String)
  | [] => []
  | (k, vs) :: rest => vs.map (fun v => (k, v)) ++ variantsOf rest

/-- The long menu label computed in `__get_image_stanzas` (livecd.py
526-531). -/
def long_label (c : Config) (kernel : String) (dflt : Bool) : String :=
  if dflt then c.product
  else if hasPre kernel "kernel-" then
    c.product ++ " (" ++ strDrop kernel 7 ++ ")"
  else
    c.product ++ " (" ++ kernel ++ ")"

/-- Kernel options for one variant (livecd.py 533-537): dracut images get
the extra `rd.*=0` arguments. -/
def variant_kern_opts (kernel_options : String) (isDracut : Bool) : String :=
  if isDracut then kernel_options ++ " rd.luks=0 rd.md=0 rd.dm=0"
  else kernel_options

/-- The body of the `for kernel, version in ...` loop of
`x86LiveImageCreator.__get_image_stanzas` (livecd.py 508-577), as a
recursion over the remaining variants.  `i` is the numeric value of the
string boot index (the source keeps `index` as a decimal string and steps
it with `str(int(index) + 1)`, which is exactly `Nat.repr` of a counter).
The `menu default` tag is appended to the just-created primary stanza when
`__is_default_kernel` holds. -/
def stanzas_go (c : Config) : List (String × String) → Nat → Except CErr StanzaAcc
  | [], _ => .ok ⟨[], [], [], [], [], []⟩
  | (kernel, version) :: rest, i => do
    let ck ← copy_kernel_and_initramfs c version (Nat.repr i)
    let acc ← stanzas_go c rest (i + 1)
    let dflt := is_default_kernel c kernel
    let long := long_label c kernel dflt
    let kern_opts := variant_kern_opts (get_kernel_options c) ck.isDracut
    let stLinux := get_image_stanza ck.isXen ck.isDracut c.fslabel "auto" kern_opts
      ("^Start " ++ long) ("linux" ++ Nat.repr i) "" "" (Nat.repr i)
    let stLinux := if dflt then stLinux ++ "  menu default\n" else stLinux
    let stBasic := get_image_stanza ck.isXen ck.isDracut c.fslabel "auto" kern_opts
      ("Start " ++ long ++ " in ^basic graphics mode.") ("basic" ++ Nat.repr i)
      "nomodeset" "Try this option out if you\x27re having trouble starting." (Nat.repr i)
    let stCheck :=
      if has_checkisomd5 c then
        some (get_image_stanza ck.isXen ck.isDracut c.fslabel "auto" kern_opts
          ("^Test this media & start " ++ long) ("check" ++ Nat.repr i)
          "rd.live.check" "" (Nat.repr i))
      else
        none
    .ok { linux := stLinux :: acc.linux
          basic := stBasic :: acc.basic
          check := stCheck :: acc.check
          variants := ⟨kernel, version, i, ck.isXen, ck.isDracut⟩ :: acc.variants
          staged := ck.staged ++ acc.staged
          warnings := ck.warns ++ acc.warnings }

/-- `x86LiveImageCreator.__get_image_stanzas` (livecd.py 508-577). -/
def get_image_stanzas (c : Config) : Except CErr StanzaAcc :=
  stanzas_go c (variantsOf c.kernels) 0

/-- `self._isDracut`, set while processing the variant with index "0"
(livecd.py 521-522); absent when there are no variants. -/
def isDracut0 (st : StanzaAcc) : Option Bool :=
  match st.variants with
  | [] => none
  | v :: _ => some v.isDracut

/-- `x86LiveImageCreator.__get_memtest_stanza` (livecd.py 579-594): stanza
text plus staged path, or empty when no `memtest86*` binary is present. -/
def get_memtest_stanza (c : Config) : String × List String :=
  if c.instroot_files.any (fun p => hasPre p "/boot/memtest86") then
    ("label memtest\n" ++
     "  menu label Run a ^memory test\n" ++
     "  text help\n" ++
     "    If your system is having issues, an problem with your\n" ++
     "    system\x27s memory may be the cause. Use this utility to\n" ++
     "    see if the memory is working correctly.\n" ++
     "  endtext\n" ++
     "  kernel memtest\n", ["isolinux/memtest"])
  else
    ("", [])

/-- `x86LiveImageCreator.__get_local_stanza` (livecd.py 596-600). -/
def get_local_stanza : String :=
  "label local\n" ++
  "  menu label Boot from ^local drive\n" ++
  "  localboot 0xffff\n"

/-- `x86LiveImageCreator._get_isolinux_stanzas` (livecd.py 353-354). -/
def get_isolinux_stanzas : String :=
  ""

/-- The `for b, c in zip(basic, check)` accumulation of
`_configure_syslinux_bootloader` (livecd.py 631-634). -/
def joinPairs : List String → List (Option String) → String
  | b :: bs, oc :: cs =>
    b ++ (match oc with | some s => s | none => "") ++ joinPairs bs cs
  | _, _ => ""

/-- Everything `x86LiveImageCreator._configure_syslinux_bootloader`
produced: the rendered `isolinux.cfg` text, the paths staged under the ISO
directory, warnings, and the stanza breakdown. -/
structure BootcfgResult where
  cfg : String
  staged : List String
  warnings : List String
  linux : List String
  basic : List String
  check : List (Option String)
  variants : List VInfo
deriving DecidableEq, Repr

/-- `x86LiveImageCreator._configure_syslinux_bootloader` (livecd.py
602-650), assembling the configuration text in the exact source order. -/
def configure_syslinux_bootloader (c : Config) : Except CErr BootcfgResult := do
  let menu ← find_syslinux_menu c
  let sysFiles ← copy_syslinux_files c menu (find_syslinux_mboot c)
  let bg := copy_syslinux_background c
  let background := if bg then "splash.png" else ""
  let cfg0 := get_basic_syslinux_config menu background c.title (c.timeout * 10) ++
    "menu separator\n"
  let st ← get_image_stanzas c
  let cfg1 := cfg0 ++ joinStr st.linux ++ "menu separator\n"
  let cfg2 := cfg1 ++ "menu begin ^Troubleshooting\n  menu title Troubleshooting\n" ++
    joinPairs st.basic st.check
  let mem := get_memtest_stanza c
  let cfg3 := cfg2 ++ mem.1 ++ "menu separator\n" ++ get_local_stanza ++
    get_isolinux_stanzas ++
    "menu separator\n" ++
    "label returntomain\n" ++
    "  menu label Return to ^main menu.\n" ++
    "  menu exit\n" ++
    "menu end\n"
  return { cfg := cfg3
           staged := sysFiles ++ (if bg then ["isolinux/splash.png"] else []) ++
             st.staged ++ mem.2 ++ ["isolinux/isolinux.cfg"]
           warnings := st.warnings
           linux := st.linux
           basic := st.basic
           check := st.check
           variants := st.variants }

/-- `x86LiveImageCreator.efiarch` (livecd.py 652-658): `{"i386": "IA32",
"x86_64": "X64"}[getBaseArch()]`; the class is only instantiated for these
two architectures (livecd.py 783-787). -/
def efiarch (c : Config) : String :=
  if c.basearch == "i386" then "IA32" else "X64"

/-- Split a character list at its first slash into (segment, remainder);
`none` when it contains no slash. -/
def splitFirstSeg : List Char → Option (List Char × List Char)
  | [] => none
  | c :: rest =>
    if c = '/' then some ([], rest)
    else match splitFirstSeg rest with
      | some (seg, rem) => some (c :: seg, rem)
      | none => none

/-- Glob matching for the EFI asset patterns `/boot/efi/EFI/*/<tail>`: the
`*` stands for exactly one path segment (no slash). -/
def efi_glob_match (tail p : String) : Bool :=
  hasPre p "/boot/efi/EFI/" &&
  (match splitFirstSeg ((strDrop p 14).data) with
   | some (_seg, rem) => rem == tail.data
   | none => false)

/-- `glob.glob(self._instroot + "/boot/efi/EFI/*/" ++ tail)` over the
modelled root filesystem. -/
def glob_efi (c : Config) (tail : String) : List String :=
  c.instroot_files.filter (efi_glob_match tail)

/-- The last path component (`shutil.copy` into a directory keeps the
source basename). -/
def basenameOf (p : String) : String :=
  String.mk (p.data.foldl (fun acc c => if c = '/' then [] else acc ++ [c]) [])

/-- Result of `__copy_efi_files`: the failure flag it returns, the
destination paths it staged (possibly partial), and the `msger.error`
logs for missing assets. -/
structure EfiCopyResult where
  fail : Bool
  staged : List String
  errlogs : List String
deriving DecidableEq, Repr

/-- One `for src, dest in files` iteration of
`x86LiveImageCreator.__copy_efi_files` (livecd.py 675-681). -/
def efi_copy_step (c : Config) (r : EfiCopyResult) (sd : String × String) : EfiCopyResult :=
  match glob_efi c sd.1 with
  | [] =>
    { r with fail := true
             errlogs := r.errlogs ++
               msger_error ("Missing EFI file (/boot/efi/EFI/*/" ++ sd.1 ++ ")") }
  | p :: _ =>
    { r with staged := r.staged ++
        [if hasSuf sd.2 "/" then sd.2 ++ basenameOf p else sd.2] }

/-- `x86LiveImageCreator.__copy_efi_files` (livecd.py 660-683): requires
the secure-boot shim, the bootloader proper and the font resource; any
missing asset sets the failure flag while present ones are still copied. -/
def copy_efi_files (c : Config) : EfiCopyResult :=
  [("shim.efi", "/EFI/BOOT/BOOT" ++ efiarch c ++ ".efi"),
   ("gcdx64.efi", "/EFI/BOOT/grubx64.efi"),
   ("fonts/unicode.pf2", "/EFI/BOOT/fonts/")].foldl (efi_copy_step c)
    { fail := false, staged := [], errlogs := [] }

/-- `x86LiveImageCreator.__get_basic_efi_config` (livecd.py 685-709),
transcribed verbatim; the caller passes `self._timeout` unchanged. -/
def get_basic_efi_config (isolabel : String) (timeout : Nat) : String :=
  "\nset default=\"1\"\n" ++
  "\n" ++
  "function load_video \x7b\n" ++
  "  insmod efi_gop\n" ++
  "  insmod efi_uga\n" ++
  "  insmod video_bochs\n" ++
  "  insmod video_cirrus\n" ++
  "  insmod all_video\n" ++
  "\x7d\n" ++
  "\n" ++
  "load_video\n" ++
  "set gfxpayload=keep\n" ++
  "insmod gzio\n" ++
  "insmod part_gpt\n" ++
  "insmod ext2\n" ++
  "\n" ++
  "set timeout=" ++ Nat.repr timeout ++ "\n" ++
  ("### END /etc/grub.d/00_header ###\n" ++
  "\n" ++
  "search --no-floppy --set=root -l \x27" ++ isolabel ++ "\x27\n" ++
  "\n" ++
  "### BEGIN /etc/grub.d/10_linux ###\n")

/-- `x86LiveImageCreator.__get_efi_image_stanza` (livecd.py 711-720).
`isDracut` is the `self._isDracut` attribute recorded for boot index 0. -/
def get_efi_image_stanza (isDracut : Bool) (fslabel liveargs long extra : String)
    (index : Nat) : String :=
  let rootlabel :=
    if isDracut then "live:LABEL=" ++ fslabel else "CDLABEL=" ++ fslabel
  "menuentry \x27" ++ long ++ "\x27 --class fedora --class gnu-linux --class gnu --class os \x7b\n" ++
  "\tlinuxefi /isolinux/vmlinuz" ++ Nat.repr index ++ " root=" ++ rootlabel ++ " " ++
    liveargs ++ " " ++ extra ++ "\n" ++
  "\tinitrdefi /isolinux/initrd" ++ Nat.repr index ++ ".img\n" ++
  "\x7d\n"

/-- The body of the `for index in range(0, 9)` loop of
`__get_efi_image_stanzas` for the first index whose `xen<index>.gz` is not
present under `EFI/BOOT` (the loop `continue`s past xen indices and
`break`s after the first rendered one). -/
def efi_stanzas_at (c : Config) (isDracut : Bool) (index : Nat) : String :=
  let entry := get_efi_image_stanza isDracut c.fslabel (get_kernel_options c)
    ("Start " ++ c.product) "" index
  let checkPart :=
    if has_checkisomd5 c then
      get_efi_image_stanza isDracut c.fslabel (get_kernel_options c)
        ("Test this media & start " ++ c.product) "rd.live.check" index
    else
      ""
  entry ++ checkPart ++
  "\nsubmenu \x27Troubleshooting --\x3e\x27 \x7b\n" ++
  get_efi_image_stanza isDracut c.fslabel (get_kernel_options c)
    ("Start " ++ c.product ++ " in basic graphics mode") "nomodeset" index ++
  "\x7d\n"

/-- `x86LiveImageCreator.__get_efi_image_stanzas` (livecd.py 722-756): scan
indices 0..8, skipping those with a staged `EFI/BOOT/xen<i>.gz` (which this
code base never stages there), render the first remaining index, stop
(`# FIXME: this only supports one kernel right now`). -/
def get_efi_image_stanzas (c : Config) (isDracut : Bool) (efiStaged : List String) : String :=
  match (List.range 9).find? (fun i =>
      !(efiStaged.contains ("/EFI/BOOT/xen" ++ Nat.repr i ++ ".gz"))) with
  | some i => efi_stanzas_at c isDracut i
  | none => ""

/-- Observable outcome of `_configure_efi_bootloader`: the EFI files
remaining under the staging tree, the `grub.cfg` text when one was
written, and the warnings issued. -/
structure EfiConfigResult where
  efiFiles : List String
  grubCfg : Option String
  warnings : List String
deriving DecidableEq, Repr

/-- `x86LiveImageCreator._configure_efi_bootloader` (livecd.py 758-776):
when any required EFI asset is missing the whole `EFI` subtree is removed
(`shutil.rmtree(isodir + "/EFI")`), a warning is issued and the function
returns without error; otherwise the configuration is rendered and
written, and on i386 the shim is also linked as `BOOT.efi`. -/
def configure_efi_bootloader (c : Config) (isDracut : Bool) : EfiConfigResult :=
  let r := copy_efi_files c
  if r.fail then
    { efiFiles := []
      grubCfg := none
      warnings := r.errlogs ++
        ["Failed to copy EFI files, no EFI Support will be included."] }
  else
    let cfg := get_basic_efi_config c.fslabel c.timeout ++
      get_efi_image_stanzas c isDracut r.staged
    { efiFiles := r.staged ++ ["/EFI/BOOT/grub.cfg"] ++
        (if c.basearch == "i386" then ["/EFI/BOOT/BOOT.efi"] else [])
      grubCfg := some cfg
      warnings := r.errlogs }

/-- `x86LiveImageCreator._configure_bootloader` (livecd.py 778-781): only
the syslinux configuration runs; the EFI configuration call is commented
out in the source ("TODO: Enable EFI configuration when we actually have
grub2"). -/
def configure_bootloader (c : Config) : Except CErr BootcfgResult :=
  configure_syslinux_bootloader c

/-- `LiveImageCreatorBase._create_bootconfig` (livecd.py 197-199): ensure
the ISO staging directory exists (`__ensure_isodir`), then configure the
bootloader inside it. -/
def create_bootconfig (c : Config) : Except CErr BootcfgResult :=
  configure_bootloader c

/-- Terminal state of one pipeline run (spec section 4.5 state machine). -/
inductive RunOutcome where
  | done
  | failed (e : CErr)
deriving DecidableEq, Repr

/-- Observable result of one pipeline run. -/
structure RunResult where
  outcome : RunOutcome
  /-- the staging directory was created during the run -/
  isodirCreated : Bool
  /-- the staging directory was removed before the run returned -/
  isodirRemoved : Bool
  /-- `<name>.iso` is present in the output directory afterwards -/
  outdirIso : Bool
  /-- the optional `pack_to` repackaging replaced the bare ISO -/
  packed : Bool
  /-- text of `EFI/BOOT/grub.cfg` when one was produced -/
  grubCfg : Option String
  /-- text of `isolinux/isolinux.cfg` when one was produced -/
  cfg : Option String
  /-- paths staged under the ISO directory -/
  staged : List String
  warnings : List String
deriving DecidableEq, Repr

/-- The `try` body of `LiveImageCreatorBase._stage_final_image` (livecd.py
301-332) after a successful bootloader configuration: LiveOS staging and
the `__create_iso` / `__implant_md5sum` / packing sequence (livecd.py
258-299).  Returns (outcome, iso left in outdir, packed, warnings);
the `finally` clause is applied by `runPipeline` around it. -/
def stage_final_image_body (c : Config) : RunOutcome × Bool × Bool × List String :=
  if c.geniso_exit != 0 then
    (.failed (.creatorError "ISO creation failed!"), false, false, [])
  else if c.isohybrid_found && c.isohybrid_exit != 0 then
    -- the ISO file was already written by genisoimage when isohybrid fails
    (.failed (.creatorError "Hybrid ISO creation failed!"), true, false, [])
  else
    let ws :=
      if c.host_files.contains "/usr/bin/implantisomd5" ||
         c.host_files.contains "/usr/lib/anaconda-runtime/implantisomd5" then
        ([] : List String)
      else
        ["isomd5sum not installed; not setting up mediacheck"]
    match c.pack_to with
    | some _ => (.done, false, true, ws)
    | none => (.done, true, false, ws)

/-- Files staged under `LiveOS/` by `_stage_final_image` (livecd.py
303-323). -/
def liveos_staged (c : Config) : List String :=
  (if !c.skip_minimize then ["LiveOS/osmin.img"] else []) ++
  (if c.skip_compression then ["LiveOS/ext3fs.img"] else ["LiveOS/squashfs.img"])

/-- One pipeline run over the modelled core, in the order the host
framework drives it (spec section 2 control flow and section 4.5 state
machine): `_create_bootconfig` — which creates the staging directory
first thing — then `_stage_final_image`, whose `try/finally` removes the
staging directory on success and failure alike (livecd.py 333-335).  A
failure inside `_create_bootconfig` propagates before `_stage_final_image`
runs, so no staging-directory removal happens on that path. -/
def runPipeline (c : Config) : RunResult :=
  match create_bootconfig c with
  | .error e =>
    { outcome := .failed e
      isodirCreated := true
      isodirRemoved := false
      outdirIso := false
      packed := false
      grubCfg := none
      cfg := none
      staged := []
      warnings := [] }
  | .ok bc =>
    let r := stage_final_image_body c
    { outcome := r.1
      isodirCreated := true
      isodirRemoved := true
      outdirIso := r.2.1
      packed := r.2.2.1
      grubCfg := none
      cfg := some bc.cfg
      staged := bc.staged ++ liveos_staged c
      warnings := bc.warnings ++ r.2.2.2 }

/-! ### General lemmas about the string helpers -/

/-- `listSub` agrees with the mathematical infix relation. -/
theorem listSub_iff (p : List Char) (l : List Char) : listSub p l = true ↔ p <:+: l := by
  induction l with
  | nil => simp [listSub, List.isPrefixOf_iff_prefix]
  | cons c rest ih =>
    simp [listSub, List.isPrefixOf_iff_prefix, ih, List.infix_cons_iff]

/-- `hasSub` agrees with the infix relation on the underlying character
lists. -/
theorem hasSub_iff (s p : String) : hasSub s p = true ↔ p.data <:+: s.data :=
  listSub_iff _ _

/-- Locate a needle inside a string by slicing its character list. -/
theorem hasSub_of_slices (whole needle : String) (A B : List Char)
    (h : whole.data = A ++ (needle.data ++ B)) : hasSub whole needle = true := by
  rw [hasSub_iff, h]
  exact ⟨A, B, by simp⟩

/-- A substring of the left part survives appending on the right. -/
theorem hasSub_append_left {s p : String} (h : hasSub s p = true) (t : String) :
    hasSub (s ++ t) p = true := by
  rw [hasSub_iff] at h ⊢
  rw [String.data_append]
  obtain ⟨a, b, hab⟩ := h
  exact ⟨a, b ++ t.data, by rw [← hab]; simp⟩

/-- A substring of the right part survives appending on the left. -/
theorem hasSub_append_right {t p : String} (h : hasSub t p = true) (s : String) :
    hasSub (s ++ t) p = true := by
  rw [hasSub_iff] at h ⊢
  rw [String.data_append]
  obtain ⟨a, b, hab⟩ := h
  exact ⟨s.data ++ a, b, by rw [← hab]; simp⟩

/-- Appending a string makes it a trailing piece. -/
theorem hasSuf_append (s t : String) : hasSuf (s ++ t) t = true := by
  unfold hasSuf
  rw [List.isSuffixOf_iff_suffix, String.data_append]
  exact List.suffix_append _ _

/-- A string whose second-to-last character is not `t` does not end in
`"  menu default\n"`. -/
theorem no_md_suf (B E : String) (a : Char) (ha : a ≠ 't') (C : List Char)
    (hE : E.data = C ++ [a, '\n']) : hasSuf (B ++ E) "  menu default\n" = false := by
  rw [Bool.eq_false_iff]
  intro h
  unfold hasSuf at h
  rw [List.isSuffixOf_iff_suffix] at h
  have h2 : ['t', '\n'] <:+ (B ++ E).data := by
    refine List.IsSuffix.trans ?_ h
    decide
  have h3 : [a, '\n'] <:+ (B ++ E).data := by
    rw [String.data_append, hE]
    exact List.IsSuffix.trans (List.suffix_append _ _) (List.suffix_append _ _)
  have h4 : ['t', '\n'] <:+ [a, '\n'] :=
    List.suffix_of_suffix_length_le h2 h3 (by simp)
  obtain ⟨s, hs⟩ := h4
  have hl := congrArg List.length hs
  simp at hl
  subst hl
  simp at hs
  exact ha hs.symm

/-- A primary (`linux`) stanza — rendered with empty `extra` and empty
help text — never ends in the `menu default` line on its own. -/
theorem stanza_no_md (is_xen isDracut : Bool)
    (fslabel isofstype liveargs long short index : String) :
    hasSuf (get_image_stanza is_xen isDracut fslabel isofstype liveargs long short "" "" index)
      "  menu default\n" = false := by
  unfold get_image_stanza
  cases is_xen with
  | false =>
    simp only [Bool.not_false, if_true, bne_self_eq_false, Bool.false_eq_true, if_false,
      reduceIte]
    exact no_md_suf _ _ ' ' (by decide) [] rfl
  | true =>
    simp only [Bool.not_true, if_false, bne_self_eq_false, Bool.false_eq_true, if_true,
      reduceIte]
    refine no_md_suf _ _ 'g' (by decide)
      ((" --- initrd".data ++ index.data) ++ ['.', 'i', 'm']) ?_
    have g1 : (".img\n" : String).data = ['.', 'i', 'm'] ++ ['g', '\n'] := rfl
    simp [String.data_append, List.append_assoc, g1]

/-- The primary stanza ends in the `menu default` line exactly when the
variant passed `__is_default_kernel`. -/
theorem linux_stanza_md_iff (is_xen isDracut : Bool)
    (fslabel isofstype liveargs long short index : String) (dflt : Bool) :
    hasSuf ((if dflt then
        get_image_stanza is_xen isDracut fslabel isofstype liveargs long short "" "" index ++
          "  menu default\n"
      else
        get_image_stanza is_xen isDracut fslabel isofstype liveargs long short "" "" index))
      "  menu default\n" = dflt := by
  cases dflt with
  | false => simpa using stanza_no_md is_xen isDracut fslabel isofstype liveargs long short index
  | true => simpa using hasSuf_append _ _

/-! ### Behaviour of the stanza loop -/

/-- Characterisation of the `menu default` tagging performed by the
`__get_image_stanzas` loop: one primary stanza per variant, and a stanza
ends in the `menu default` line exactly when its kernel passes
`__is_default_kernel`.  There is no fallback for the case where no variant
passes. -/
theorem stanzas_go_md (c : Config) :
    ∀ (vs : List (String × String)) (i : Nat) (st : StanzaAcc),
      stanzas_go c vs i = .ok st →
      st.linux.length = vs.length ∧
      st.linux.countP (fun s => hasSuf s "  menu default\n") =
        vs.countP (fun kv => is_default_kernel c kv.1) ∧
      ∀ j, j < vs.length →
        (hasSuf (st.linux.getD j "") "  menu default\n" =
          is_default_kernel c ((vs.getD j ("", "")).1)) := by
  intro vs
  induction vs with
  | nil =>
    intro i st h
    simp [stanzas_go] at h
    subst h
    simp
  | cons kv rest ih =>
    intro i st h
    obtain ⟨kernel, version⟩ := kv
    rw [stanzas_go] at h
    cases hck : copy_kernel_and_initramfs c version (Nat.repr i) with
    | error e => rw [hck] at h; simp [Bind.bind, Except.bind] at h
    | ok ck =>
      rw [hck] at h
      cases hacc : stanzas_go c rest (i + 1) with
      | error e => rw [hacc] at h; simp [Bind.bind, Except.bind] at h
      | ok acc =>
        rw [hacc] at h
        simp [Bind.bind, Except.bind, pure, Except.pure] at h
        obtain ⟨h1, h2, h3⟩ := ih (i + 1) acc hacc
        subst h
        refine ⟨by simpa using h1, ?_, ?_⟩
        · simp only [List.countP_cons, linux_stanza_md_iff, h2]
        · intro j hj
          cases j with
          | zero =>
            simpa using linux_stanza_md_iff _ _ _ _ _ _ _ _ _
          | succ j' =>
            simp only [List.getD_cons_succ]
            exact h3 j' (by simpa using hj)

/-! ### Concrete configurations used by witnesses and counterexamples -/

/-- A root filesystem with every syslinux asset, one kernel package with
one version, a dracut initramfs and the checkisomd5 binary. -/
def baseFiles : List String :=
  ["/usr/lib/syslinux/isolinux.bin", "/usr/lib/syslinux/ldlinux.c32",
   "/usr/lib/syslinux/libcom32.c32", "/usr/lib/syslinux/libutil.c32",
   "/usr/lib/syslinux/vesamenu.c32",
   "/boot/vmlinuz-5.10.0-x", "/boot/initramfs-5.10.0-x.img",
   "/usr/bin/checkisomd5"]

/-- A fully healthy run configuration: one kernel (`5.10.0-x`) with its
dracut initramfs, all syslinux assets present, all external tools succeed. -/
def cfgOK : Config :=
  { timeout := 10
    default_kernel := some "kernel"
    product := "Maui"
    title := "Maui"
    fslabel := "Maui-Live"
    name := "maui"
    kernels := [("kernel", ["5.10.0-x"])]
    kernel_args := "ro quiet rd.live.image"
    instroot_files := baseFiles
    host_files := ["/usr/bin/implantisomd5"]
    isohybrid_found := true
    isohybrid_exit := 0
    geniso_exit := 0
    pack_to := none
    skip_minimize := false
    skip_compression := false
    basearch := "x86_64" }

/-- Two kernel packages, neither matching the configured default kernel
name `kernel-c` (exactly or with the `kernel-` tag stripped). -/
def cfgTwoKernels : Config :=
  { cfgOK with
    kernels := [("kernel-a", ["1.0-1"]), ("kernel-b", ["2.0-2"])]
    default_kernel := some "kernel-c"
    instroot_files := baseFiles ++
      ["/boot/vmlinuz-1.0-1", "/boot/initramfs-1.0-1.img",
       "/boot/vmlinuz-2.0-2", "/boot/initramfs-2.0-2.img"] }

/-- A root filesystem without any syslinux menu module, so bootloader
configuration fails. -/
def cfgNoMenu : Config :=
  { cfgOK with
    instroot_files :=
      ["/usr/lib/syslinux/isolinux.bin", "/usr/lib/syslinux/ldlinux.c32",
       "/usr/lib/syslinux/libcom32.c32", "/usr/lib/syslinux/libutil.c32",
       "/boot/vmlinuz-5.10.0-x", "/boot/initramfs-5.10.0-x.img"] }

/-- A root filesystem whose kernel enumeration yields zero versions. -/
def cfgZero : Config :=
  { cfgOK with kernels := [] }

/-- A run in which the `isohybrid` tool is found but exits non-zero. -/
def cfgHybridFail : Config :=
  { cfgOK with isohybrid_exit := 1 }

/-- A root filesystem with the EFI bootloader proper and the font present
but the secure-boot shim missing. -/
def cfgShimless : Config :=
  { cfgOK with
    instroot_files := baseFiles ++
      ["/boot/efi/EFI/maui/gcdx64.efi", "/boot/efi/EFI/maui/fonts/unicode.pf2"] }

/-- Two kernel variants, the second a xen one, with every artifact (and
`mboot.c32`) present. -/
def cfgXen : Config :=
  { cfgOK with
    kernels := [("kernel", ["5.10.0-x"]), ("kernel-xen", ["2.6.32-5"])]
    default_kernel := some "kernel"
    instroot_files := baseFiles ++
      ["/usr/lib/syslinux/mboot.c32",
       "/boot/vmlinuz-2.6.32-5", "/boot/initrd-2.6.32-5.img",
       "/boot/xen.gz-2.6.3"] }

/-! ### Line counting over rendered configuration text -/

/-- Split a character list into its newline-separated lines (structural
recursion, so concrete instances evaluate inside `decide`). -/
def splitLinesCh : List Char → List (List Char)
  | [] => [[]]
  | c :: rest =>
    let r := splitLinesCh rest
    if c = '\n' then [] :: r
    else
      match r with
      | [] => [[c]]
      | l :: ls => (c :: l) :: ls

/-- Number of lines of `s` that consist exactly of `  menu default`. -/
def countMdLines (s : String) : Nat :=
  (splitLinesCh s.data).countP (fun l => l == "  menu default".data)

/-- The rendered `isolinux.cfg` `menu default` line count of a run, or
`none` when bootloader configuration failed. -/
def mdLineCount (c : Config) : Option Nat :=
  match configure_syslinux_bootloader c with
  | .ok r => some (countMdLines r.cfg)
  | .error _ => none

/-! ### Extractors for concrete runs -/

/-- The stanza record of the healthy one-kernel run. -/
def stanzasOfOK : StanzaAcc :=
  match get_image_stanzas cfgOK with
  | .ok st => st
  | .error _ => ⟨[], [], [], [], [], []⟩

/-- The stanza record of the two-variant (xen) run. -/
def stanzasOfXen : StanzaAcc :=
  match get_image_stanzas cfgXen with
  | .ok st => st
  | .error _ => ⟨[], [], [], [], [], []⟩

/-- The bootloader-configuration record of a run (empty fallback when the
configuration step failed). -/
def bootcfgOf (c : Config) : BootcfgResult :=
  match configure_syslinux_bootloader c with
  | .ok r => r
  | .error _ => ⟨"", [], [], [], [], [], []⟩

/-- Predicate: the bootloader-configuration step of the run succeeds. -/
def bootconfigOk (c : Config) : Bool :=
  match create_bootconfig c with
  | .ok _ => true
  | .error _ => false

/-! ### Claim C1 -/

/-- C1, counterexample: a root filesystem with two kernels (at least one),
neither of which matches the configured default kernel name `kernel-c`,
renders a syslinux configuration with zero `menu default` directives — not
exactly one: `__is_default_kernel` has no post-hoc fallback that would make
the first enumerated variant default. -/
theorem C1_counterexample :
    (variantsOf cfgTwoKernels.kernels).length = 2 ∧
    mdLineCount cfgTwoKernels = some 0 := by
  constructor
  · rfl
  · rfl

/-- C1 (amended): the rendered syslinux configuration carries one `menu
default` directive per enumerated variant whose kernel passes
`__is_default_kernel` (single kernel package, exact match with the
configured default, or match after stripping the `kernel-` tag), appended
to that variant's primary (`linux`) stanza; there is no post-hoc fallback,
so when no variant passes, no `menu default` is emitted at all. -/
theorem C1_menu_default_per_matching_variant (c : Config) (st : StanzaAcc)
    (h : get_image_stanzas c = .ok st) :
    st.linux.length = (variantsOf c.kernels).length ∧
    st.linux.countP (fun s => hasSuf s "  menu default\n") =
      (variantsOf c.kernels).countP (fun kv => is_default_kernel c kv.1) ∧
    ∀ j, j < (variantsOf c.kernels).length →
      hasSuf (st.linux.getD j "") "  menu default\n" =
        is_default_kernel c ((variantsOf c.kernels).getD j ("", "")).1 := by
  have hmd := stanzas_go_md c (variantsOf c.kernels) 0 st h
  exact ⟨hmd.1, hmd.2.1, hmd.2.2⟩

/-- C1, witness: in the healthy one-kernel run the directive count equals
the matching-variant count (namely one). -/
theorem C1_witness :
    stanzasOfOK.linux.countP (fun s => hasSuf s "  menu default\n") =
      (variantsOf cfgOK.kernels).countP (fun kv => is_default_kernel cfgOK kv.1) :=
  (C1_menu_default_per_matching_variant cfgOK stanzasOfOK rfl).2.1

/-! ### Claim C2 -/

/-- C2, counterexample: when the bootloader-configuration step itself
fails (no syslinux menu module anywhere in the root), the staging
directory has already been created by `_create_bootconfig` but the
`try/finally` of `_stage_final_image` never runs, so the error surfaces
with the staging directory still in place. -/
theorem C2_counterexample :
    (runPipeline cfgNoMenu).outcome =
      .failed (.creatorError "syslinux not installed : no suitable *menu.c32 found") ∧
    (runPipeline cfgNoMenu).isodirCreated = true ∧
    (runPipeline cfgNoMenu).isodirRemoved = false := by
  refine ⟨rfl, rfl, rfl⟩

/-- C2 (amended): once the bootloader-configuration step has succeeded,
the staging directory is removed before the run surfaces its result on
every exit path of `_stage_final_image` — on success and on every failure
inside staging/assembly (`try/finally`); a failure during bootloader
configuration, however, surfaces without the removal. -/
theorem C2_staging_removed_after_bootconfig (c : Config)
    (h : bootconfigOk c = true) :
    (runPipeline c).isodirRemoved = true := by
  unfold bootconfigOk at h
  unfold runPipeline
  cases hc : create_bootconfig c with
  | error e => rw [hc] at h; simp at h
  | ok bc => simp

/-- C2, witness: the healthy run satisfies the hypothesis and removes the
staging directory. -/
theorem C2_witness : (runPipeline cfgOK).isodirRemoved = true :=
  C2_staging_removed_after_bootconfig cfgOK rfl

/-! ### Claim C3 -/

/-- C3, counterexample: with zero kernels the run does not fail at all —
it reaches `Done` with the staging directory having been created — rather
than failing with a `NoKernelFound` error before any staging directory is
created. -/
theorem C3_counterexample :
    cfgZero.kernels = [] ∧
    (runPipeline cfgZero).outcome = .done ∧
    (runPipeline cfgZero).isodirCreated = true := by
  refine ⟨rfl, rfl, rfl⟩

/-- C3 (amended): kernel enumeration yielding zero versions raises no
error anywhere in the pipeline: the bootloader configuration succeeds with
zero kernel stanzas and zero variants, the run proceeds past rendering,
and the staging directory is created (at the start of
`_create_bootconfig`) regardless. -/
theorem C3_zero_kernels_no_failure (c : Config) (bc : BootcfgResult)
    (hk : c.kernels = []) (h : create_bootconfig c = .ok bc) :
    bc.linux = [] ∧ bc.variants = [] ∧
    (runPipeline c).isodirCreated = true ∧
    (runPipeline c).cfg = some bc.cfg := by
  have hpipe : (runPipeline c).isodirCreated = true ∧ (runPipeline c).cfg = some bc.cfg := by
    unfold runPipeline
    rw [h]
    exact ⟨rfl, rfl⟩
  have hempty : bc.linux = [] ∧ bc.variants = [] := by
    unfold create_bootconfig configure_bootloader configure_syslinux_bootloader at h
    cases hm : find_syslinux_menu c with
    | error e => rw [hm] at h; simp [Bind.bind, Except.bind] at h
    | ok menu =>
      rw [hm] at h
      simp only [Bind.bind, Except.bind] at h
      cases hcf : copy_syslinux_files c menu (find_syslinux_mboot c) with
      | error e => rw [hcf] at h; simp [Bind.bind, Except.bind] at h
      | ok fs =>
        rw [hcf] at h
        have hst : get_image_stanzas c = .ok ⟨[], [], [], [], [], []⟩ := by
          unfold get_image_stanzas
          rw [hk]
          rfl
        rw [hst] at h
        simp [Bind.bind, Except.bind, pure, Except.pure] at h
        rw [← h]
        exact ⟨rfl, rfl⟩
  exact ⟨hempty.1, hempty.2, hpipe.1, hpipe.2⟩

/-- C3, witness: the zero-kernel configuration satisfies the hypotheses
and its run renders an empty stanza list. -/
theorem C3_witness :
    (bootcfgOf cfgZero).linux = [] ∧ (bootcfgOf cfgZero).variants = [] ∧
    (runPipeline cfgZero).isodirCreated = true ∧
    (runPipeline cfgZero).cfg = some (bootcfgOf cfgZero).cfg :=
  C3_zero_kernels_no_failure cfgZero (bootcfgOf cfgZero) rfl rfl

/-! ### Claim C4 -/

/-- C4, counterexample: a fully successful run produces no
`EFI/BOOT/grub.cfg` at all — the EFI configuration call in
`_configure_bootloader` is commented out — and nothing under `EFI/` is
staged. -/
theorem C4_counterexample :
    (runPipeline cfgOK).outcome = .done ∧
    (runPipeline cfgOK).grubCfg = none ∧
    (runPipeline cfgOK).staged.all (fun p => !(hasPre p "EFI/")) = true := by
  refine ⟨rfl, rfl, rfl⟩

/-- C4 (amended): no pipeline run — successful or not — produces an EFI
GRUB configuration: `_configure_bootloader` only invokes the syslinux
configuration, the `_configure_efi_bootloader` call being commented out in
the source. -/
theorem C4_no_grub_cfg_produced (c : Config) :
    (runPipeline c).grubCfg = none := by
  unfold runPipeline
  cases h : create_bootconfig c <;> simp

/-! ### Claim C5 -/

/-- C5, counterexample: in the one-kernel dracut run the rendered
configuration's primary stanza carries a `live:CDLABEL=` root reference,
not the `live:LABEL=` reference the claim states (that variant of the
syntax exists only in the never-invoked EFI renderer). -/
theorem C5_counterexample :
    hasSub (stanzasOfOK.linux.getD 0 "") "live:LABEL=" = false ∧
    hasSub (bootcfgOf cfgOK).cfg "live:LABEL=" = false := by
  refine ⟨by decide, by decide⟩

/-- C5 (amended): for a root filesystem with exactly one kernel whose
dracut-style initramfs is present, the rendered configuration contains
exactly one primary stanza, that stanza references `vmlinuz0` and
`initrd0.img` and carries a `live:CDLABEL=` root device reference, and
when all external tools succeed the run reaches `Done` with the final ISO
existing and the staging directory removed. -/
theorem C5_end_to_end :
    (runPipeline cfgOK).outcome = .done ∧
    (runPipeline cfgOK).outdirIso = true ∧
    (runPipeline cfgOK).isodirRemoved = true ∧
    stanzasOfOK.linux.length = 1 ∧
    hasSub (stanzasOfOK.linux.getD 0 "") "vmlinuz0" = true ∧
    hasSub (stanzasOfOK.linux.getD 0 "") "initrd0.img" = true ∧
    hasSub (stanzasOfOK.linux.getD 0 "") "live:CDLABEL=" = true := by
  refine ⟨rfl, rfl, rfl, rfl, by decide, by decide, by decide⟩

/-! ### Claim C6 -/

/-- A step of the `__copy_efi_files` loop keeps the failure flag set. -/
theorem efi_step_keeps_fail (c : Config) (r : EfiCopyResult) (sd : String × String)
    (h : r.fail = true) : (efi_copy_step c r sd).fail = true := by
  unfold efi_copy_step
  cases glob_efi c sd.1 <;> simp [h]

/-- A step of the `__copy_efi_files` loop whose glob comes back empty sets
the failure flag. -/
theorem efi_step_sets_fail (c : Config) (r : EfiCopyResult) (sd : String × String)
    (h : glob_efi c sd.1 = []) : (efi_copy_step c r sd).fail = true := by
  unfold efi_copy_step
  rw [h]

/-- C6: when any one of the three required EFI assets (secure-boot shim,
bootloader proper, font resource) is missing from the root filesystem,
`_configure_efi_bootloader` leaves zero EFI files in the staging tree (the
whole `EFI` subtree is removed, never partially populated), reports a
warning, and returns without a fatal error. -/
theorem C6_efi_all_or_nothing (c : Config) (isD : Bool)
    (h : glob_efi c "shim.efi" = [] ∨ glob_efi c "gcdx64.efi" = [] ∨
         glob_efi c "fonts/unicode.pf2" = []) :
    (configure_efi_bootloader c isD).efiFiles = [] ∧
    (configure_efi_bootloader c isD).grubCfg = none ∧
    (configure_efi_bootloader c isD).warnings ≠ [] := by
  have hfail : (copy_efi_files c).fail = true := by
    unfold copy_efi_files
    simp only [List.foldl]
    rcases h with h | h | h
    · exact efi_step_keeps_fail _ _ _ (efi_step_keeps_fail _ _ _ (efi_step_sets_fail _ _ _ h))
    · exact efi_step_keeps_fail _ _ _ (efi_step_sets_fail _ _ _ h)
    · exact efi_step_sets_fail _ _ _ h
  unfold configure_efi_bootloader
  simp [hfail]

/-- C6, witness: a root with the bootloader proper and font present but
the shim missing ends up with zero EFI files, no `grub.cfg` and a
warning. -/
theorem C6_witness :
    (configure_efi_bootloader cfgShimless true).efiFiles = [] ∧
    (configure_efi_bootloader cfgShimless true).grubCfg = none ∧
    (configure_efi_bootloader cfgShimless true).warnings ≠ [] :=
  C6_efi_all_or_nothing cfgShimless true (Or.inl rfl)

/-! ### Claim C7 -/

/-- C7: hybrid-ISO post-processing is attempted iff the `isohybrid` lookup
succeeds: with mastering successful, a failed lookup leads to `Done`
without error, while a located tool exiting non-zero fails the run with
the hybrid error, still removes the staging directory, and performs no
final packaging of the partially-written ISO (the run reports failure, so
the ISO is not treated as valid output). -/
theorem C7_hybrid_postprocess (c : Config)
    (hb : bootconfigOk c = true) (hg : c.geniso_exit = 0) :
    (c.isohybrid_found = false → (runPipeline c).outcome = .done) ∧
    (c.isohybrid_found = true → c.isohybrid_exit ≠ 0 →
      (runPipeline c).outcome = .failed (.creatorError "Hybrid ISO creation failed!") ∧
      (runPipeline c).isodirRemoved = true ∧
      (runPipeline c).packed = false) := by
  unfold bootconfigOk at hb
  unfold runPipeline
  cases hc : create_bootconfig c with
  | error e => rw [hc] at hb; simp at hb
  | ok bc =>
    simp only
    unfold stage_final_image_body
    constructor
    · intro hf
      simp only [hg, hf]
      cases c.pack_to <;> simp
    · intro hf he
      have hbne : (c.isohybrid_exit != 0) = true := by simpa using he
      simp [hg, hf, hbne]

/-- C7, witness: the concrete run whose `isohybrid` exits with status 1
fails with the hybrid error, with the staging directory removed and no
packaging. -/
theorem C7_witness :
    (runPipeline cfgHybridFail).outcome =
      .failed (.creatorError "Hybrid ISO creation failed!") ∧
    (runPipeline cfgHybridFail).isodirRemoved = true ∧
    (runPipeline cfgHybridFail).packed = false :=
  (C7_hybrid_postprocess cfgHybridFail rfl rfl).2 rfl (by decide)

/-! ### Claim C8 -/

/-- A root filesystem whose `/usr/lib/syslinux` has every needed module
except `ldlinux.c32` (present in neither candidate location). -/
def cfgLdlinuxMissing : Config :=
  { cfgOK with
    instroot_files :=
      ["/usr/lib/syslinux/isolinux.bin", "/usr/lib/syslinux/libcom32.c32",
       "/usr/lib/syslinux/libutil.c32", "/usr/lib/syslinux/vesamenu.c32",
       "/boot/vmlinuz-5.10.0-x", "/boot/initramfs-5.10.0-x.img"] }

/-- A root filesystem missing the very first required file,
`isolinux.bin`, in both candidate locations. -/
def cfgNoIsolinuxBin : Config :=
  { cfgOK with
    instroot_files :=
      ["/usr/lib/syslinux/ldlinux.c32", "/usr/lib/syslinux/libcom32.c32",
       "/usr/lib/syslinux/libutil.c32", "/usr/lib/syslinux/vesamenu.c32",
       "/boot/vmlinuz-5.10.0-x", "/boot/initramfs-5.10.0-x.img"] }

/-- C8, evaluation at the failing inputs: with `ldlinux.c32` absent from
both candidate locations the copy loop succeeds silently — it re-copies
`isolinux.bin` (the stale `path` of the previous iteration) instead of
raising the descriptive error, and `ldlinux.c32` is never staged; and with
the first file (`isolinux.bin`) absent the loop dies with an unbound-local
error instead of the descriptive error. -/
theorem C8_stale_path_bug :
    copy_syslinux_files cfgLdlinuxMissing "vesamenu.c32" none =
      .ok ["isolinux/isolinux.bin", "isolinux/isolinux.bin", "isolinux/libcom32.c32",
           "isolinux/libutil.c32", "isolinux/vesamenu.c32"] ∧
    copy_syslinux_files cfgNoIsolinuxBin "vesamenu.c32" none = .error .nameError := by
  refine ⟨rfl, rfl⟩

/-! ### Claim C9: stanza reference lemmas -/

/-- The needle `vmlinuz<index>` sits at the `kernel` line boundary. -/
theorem hasSub_kernel_vmlinuz (P index : String) :
    hasSub ((P ++ "  kernel vmlinuz") ++ index) ("vmlinuz" ++ index) = true := by
  refine hasSub_of_slices _ _ (P.data ++ "  kernel ".data) [] ?_
  have g : ("  kernel vmlinuz" : String).data = "  kernel ".data ++ "vmlinuz".data := rfl
  simp [String.data_append, List.append_assoc, g]

/-- The needle `initrd<index>.img` sits inside the `append` line. -/
theorem hasSub_initrd_ref (P index : String) :
    hasSub (((P ++ "  append initrd=initrd") ++ index) ++ ".img root=")
      ("initrd" ++ index ++ ".img") = true := by
  refine hasSub_of_slices _ _ (P.data ++ "  append initrd=".data) (" root=".data) ?_
  have g1 : ("  append initrd=initrd" : String).data =
    "  append initrd=".data ++ "initrd".data := rfl
  have g2 : (".img root=" : String).data = ".img".data ++ " root=".data := rfl
  simp [String.data_append, List.append_assoc, g1, g2]

/-- The needle `vmlinuz<index>` sits inside the xen chain line. -/
theorem hasSub_gz_vmlinuz (P index : String) :
    hasSub ((P ++ ".gz --- vmlinuz") ++ index) ("vmlinuz" ++ index) = true := by
  refine hasSub_of_slices _ _ (P.data ++ ".gz --- ".data) [] ?_
  have g : (".gz --- vmlinuz" : String).data = ".gz --- ".data ++ "vmlinuz".data := rfl
  simp [String.data_append, List.append_assoc, g]

/-- The needle `xen<index>.gz` sits at the start of the xen chain line. -/
theorem hasSub_append_xen (P index : String) :
    hasSub (((P ++ "  append xen") ++ index) ++ ".gz --- vmlinuz")
      ("xen" ++ index ++ ".gz") = true := by
  refine hasSub_of_slices _ _ (P.data ++ "  append ".data) (" --- vmlinuz".data) ?_
  have g1 : ("  append xen" : String).data = "  append ".data ++ "xen".data := rfl
  have g2 : (".gz --- vmlinuz" : String).data = ".gz".data ++ " --- vmlinuz".data := rfl
  simp [String.data_append, List.append_assoc, g1, g2]

/-- The needle `initrd<index>.img` sits at the end of the xen chain line. -/
theorem hasSub_dashes_initrd (index : String) :
    hasSub ((" --- initrd" ++ index) ++ ".img\n") ("initrd" ++ index ++ ".img") = true := by
  refine hasSub_of_slices _ _ (" --- ".data) ("\n".data) ?_
  have g1 : (" --- initrd" : String).data = " --- ".data ++ "initrd".data := rfl
  have g2 : (".img\n" : String).data = ".img".data ++ "\n".data := rfl
  simp [String.data_append, List.append_assoc, g1, g2]

/-- Any primary stanza references its own `vmlinuz<index>` and
`initrd<index>.img` artifacts, under either template. -/
theorem linux_stanza_refs (is_xen isDracut : Bool)
    (fslabel isofstype liveargs long short index : String) :
    hasSub (get_image_stanza is_xen isDracut fslabel isofstype liveargs long short "" "" index)
      ("vmlinuz" ++ index) = true ∧
    hasSub (get_image_stanza is_xen isDracut fslabel isofstype liveargs long short "" "" index)
      ("initrd" ++ index ++ ".img") = true := by
  unfold get_image_stanza
  cases is_xen with
  | false =>
    simp only [Bool.not_false, if_true, bne_self_eq_false, Bool.false_eq_true, if_false, reduceIte]
    constructor
    · iterate 10 apply hasSub_append_left
      exact hasSub_kernel_vmlinuz _ _
    · iterate 6 apply hasSub_append_left
      exact hasSub_initrd_ref _ _
  | true =>
    simp only [Bool.not_true, if_false, bne_self_eq_false, Bool.false_eq_true, if_true, reduceIte]
    constructor
    · iterate 9 apply hasSub_append_left
      exact hasSub_gz_vmlinuz _ _
    · apply hasSub_append_right
      exact hasSub_dashes_initrd _

/-- A xen primary stanza references its `xen<index>.gz` artifact. -/
theorem xen_stanza_ref (isDracut : Bool)
    (fslabel isofstype liveargs long short index : String) :
    hasSub (get_image_stanza true isDracut fslabel isofstype liveargs long short "" "" index)
      ("xen" ++ index ++ ".gz") = true := by
  unfold get_image_stanza
  simp only [Bool.not_true, if_false, bne_self_eq_false, Bool.false_eq_true, if_true, reduceIte]
  iterate 10 apply hasSub_append_left
  exact hasSub_append_xen _ _

/-- A substring of a primary stanza survives the optional `menu default`
tag. -/
theorem linux_entry_has {needle stanza : String} (dflt : Bool)
    (h : hasSub stanza needle = true) :
    hasSub (if dflt then stanza ++ "  menu default\n" else stanza) needle = true := by
  cases dflt
  · simpa using h
  · simpa using hasSub_append_left h _

/-- What `__copy_kernel_and_initramfs` stages on success: the indexed
kernel image always, the indexed initrd when either initramfs artifact
exists, the indexed hypervisor image when the xen image exists — and the
xen flag records exactly that existence. -/
theorem copyKI_spec (c : Config) (version index : String) (ck : CopyKI)
    (h : copy_kernel_and_initramfs c version index = .ok ck) :
    ("isolinux/vmlinuz" ++ index) ∈ ck.staged ∧
    ((fileExists c ("/boot/initramfs-" ++ version ++ ".img") = true ∨
      fileExists c ("/boot/initrd-" ++ version ++ ".img") = true) →
      ("isolinux/initrd" ++ index ++ ".img") ∈ ck.staged) ∧
    (fileExists c ("/boot/xen.gz-" ++ strDropRight version 3) = true →
      ("isolinux/xen" ++ index ++ ".gz") ∈ ck.staged) ∧
    ck.isXen = fileExists c ("/boot/xen.gz-" ++ strDropRight version 3) := by
  unfold copy_kernel_and_initramfs at h
  cases hv : fileExists c ("/boot/vmlinuz-" ++ version) <;> rw [hv] at h
  · simp at h
  · simp only [Bool.not_true, Bool.false_eq_true, if_false, reduceIte] at h
    cases hi1 : fileExists c ("/boot/initramfs-" ++ version ++ ".img") <;>
    cases hi2 : fileExists c ("/boot/initrd-" ++ version ++ ".img") <;>
    cases hx : fileExists c ("/boot/xen.gz-" ++ strDropRight version 3) <;>
      simp only [hi1, hi2, hx, Bool.false_eq_true, Bool.true_eq_false, if_false, if_true,
        reduceIte, Except.ok.injEq] at h <;>
      subst h <;>
      simp [hi1, hi2, hx]

/-- Index and artifact bookkeeping of the `__get_image_stanzas` loop,
generalised over the start index: the variant indices are exactly
`i, i+1, …` in discovery order, and the staged artifact names match the
names the rendered primary stanzas reference. -/
theorem stanzas_go_c9 (c : Config) :
    ∀ (vs : List (String × String)) (i : Nat) (st : StanzaAcc),
      stanzas_go c vs i = .ok st →
      st.variants.map VInfo.idx = List.range' i vs.length ∧
      st.linux.length = vs.length ∧
      ∀ j, j < vs.length →
        ("isolinux/vmlinuz" ++ Nat.repr (i + j)) ∈ st.staged ∧
        hasSub (st.linux.getD j "") ("vmlinuz" ++ Nat.repr (i + j)) = true ∧
        hasSub (st.linux.getD j "") ("initrd" ++ Nat.repr (i + j) ++ ".img") = true ∧
        ((fileExists c ("/boot/initramfs-" ++ (vs.getD j ("", "")).2 ++ ".img") = true ∨
          fileExists c ("/boot/initrd-" ++ (vs.getD j ("", "")).2 ++ ".img") = true) →
          ("isolinux/initrd" ++ Nat.repr (i + j) ++ ".img") ∈ st.staged) ∧
        (fileExists c ("/boot/xen.gz-" ++ strDropRight (vs.getD j ("", "")).2 3) = true →
          ("isolinux/xen" ++ Nat.repr (i + j) ++ ".gz") ∈ st.staged ∧
          hasSub (st.linux.getD j "") ("xen" ++ Nat.repr (i + j) ++ ".gz") = true) := by
  intro vs
  induction vs with
  | nil =>
    intro i st h
    simp [stanzas_go] at h
    subst h
    simp
  | cons kv rest ih =>
    intro i st h
    obtain ⟨kernel, version⟩ := kv
    rw [stanzas_go] at h
    cases hck : copy_kernel_and_initramfs c version (Nat.repr i) with
    | error e => rw [hck] at h; simp [Bind.bind, Except.bind] at h
    | ok ck =>
      rw [hck] at h
      cases hacc : stanzas_go c rest (i + 1) with
      | error e => rw [hacc] at h; simp [Bind.bind, Except.bind] at h
      | ok acc =>
        rw [hacc] at h
        simp [Bind.bind, Except.bind, pure, Except.pure] at h
        obtain ⟨h1, h2, h3⟩ := ih (i + 1) acc hacc
        obtain ⟨m1, m2, m3, m4⟩ := copyKI_spec c version (Nat.repr i) ck hck
        subst h
        refine ⟨?_, by simpa using h2, ?_⟩
        · simp [h1, List.range'_succ]
        · intro j hj
          cases j with
          | zero =>
            simp only [Nat.add_zero, List.getD_cons_zero, List.getD_cons_succ]
            refine ⟨List.mem_append.mpr (Or.inl m1),
              linux_entry_has _ (linux_stanza_refs _ _ _ _ _ _ _ _).1,
              linux_entry_has _ (linux_stanza_refs _ _ _ _ _ _ _ _).2, ?_, ?_⟩
            · intro hinit
              exact List.mem_append.mpr (Or.inl (m2 hinit))
            · intro hxen
              refine ⟨List.mem_append.mpr (Or.inl (m3 hxen)), ?_⟩
              have hx : ck.isXen = true := by rw [m4, hxen]
              rw [hx]
              exact linux_entry_has _ (xen_stanza_ref _ _ _ _ _ _ _)
          | succ j' =>
            have hj' : j' < rest.length := by simpa using hj
            have hre : i + (j' + 1) = (i + 1) + j' := by omega
            obtain ⟨a1, a2, a3, a4, a5⟩ := h3 j' hj'
            rw [hre]
            simp only [List.getD_cons_succ]
            refine ⟨List.mem_append.mpr (Or.inr a1), a2, a3, ?_, ?_⟩
            · intro hinit
              exact List.mem_append.mpr (Or.inr (a4 hinit))
            · intro hxen
              obtain ⟨b1, b2⟩ := a5 hxen
              exact ⟨List.mem_append.mpr (Or.inr b1), b2⟩

/-- C9: boot indices assigned to kernel variants form the contiguous
zero-based sequence `0, 1, …` with no gaps or duplicates, in discovery
order, and the artifacts staged for the variant at index `i` are named
`vmlinuz<i>` and `initrd<i>.img` (when its initramfs artifact exists),
plus `xen<i>.gz` for xen variants — names that match what the variant's
rendered primary stanza references. -/
theorem C9_contiguous_indices_and_names (c : Config) (st : StanzaAcc)
    (h : get_image_stanzas c = .ok st) :
    st.variants.map VInfo.idx = List.range (variantsOf c.kernels).length ∧
    st.linux.length = (variantsOf c.kernels).length ∧
    ∀ j, j < (variantsOf c.kernels).length →
      ("isolinux/vmlinuz" ++ Nat.repr j) ∈ st.staged ∧
      hasSub (st.linux.getD j "") ("vmlinuz" ++ Nat.repr j) = true ∧
      hasSub (st.linux.getD j "") ("initrd" ++ Nat.repr j ++ ".img") = true ∧
      ((fileExists c ("/boot/initramfs-" ++ ((variantsOf c.kernels).getD j ("", "")).2 ++ ".img") = true ∨
        fileExists c ("/boot/initrd-" ++ ((variantsOf c.kernels).getD j ("", "")).2 ++ ".img") = true) →
        ("isolinux/initrd" ++ Nat.repr j ++ ".img") ∈ st.staged) ∧
      (fileExists c ("/boot/xen.gz-" ++ strDropRight ((variantsOf c.kernels).getD j ("", "")).2 3) = true →
        ("isolinux/xen" ++ Nat.repr j ++ ".gz") ∈ st.staged ∧
        hasSub (st.linux.getD j "") ("xen" ++ Nat.repr j ++ ".gz") = true) := by
  obtain ⟨a, b, d⟩ := stanzas_go_c9 c (variantsOf c.kernels) 0 st h
  refine ⟨by rw [a, List.range_eq_range'], b, ?_⟩
  intro j hj
  have := d j hj
  simpa using this

/-- C9, witness: the two-variant run (second variant xen) has indices
`[0, 1]` and stages/references the matching artifact names. -/
theorem C9_witness :
    stanzasOfXen.variants.map VInfo.idx = List.range (variantsOf cfgXen.kernels).length ∧
    ("isolinux/vmlinuz" ++ Nat.repr 1) ∈ stanzasOfXen.staged ∧
    hasSub (stanzasOfXen.linux.getD 1 "") ("vmlinuz" ++ Nat.repr 1) = true := by
  have hmain := C9_contiguous_indices_and_names cfgXen stanzasOfXen rfl
  have h1 := hmain.2.2 1 (by decide)
  exact ⟨hmain.1, h1.1, h1.2.1⟩

/-! ### Claim C10 -/

/-- A `timeout <t>` line embedded after a line break is a substring. -/
theorem hasSub_timeout_gen (A tail : String) (t : Nat) :
    hasSub (A ++ "\n" ++ "timeout " ++ Nat.repr t ++ "\n" ++ tail)
      ("\ntimeout " ++ Nat.repr t ++ "\n") = true := by
  refine hasSub_of_slices _ _ A.data tail.data ?_
  have g : ("\ntimeout " : String).data = "\n".data ++ "timeout ".data := rfl
  simp [String.data_append, List.append_assoc, g]

/-- The syslinux header renders its timeout slot as a `timeout` line. -/
theorem basic_syslinux_has_timeout (menu background title : String) (t : Nat) :
    hasSub (get_basic_syslinux_config menu background title t)
      ("\ntimeout " ++ Nat.repr t ++ "\n") = true := by
  unfold get_basic_syslinux_config
  exact hasSub_timeout_gen _ _ t

/-- A `set timeout=<t>` line is a substring wherever it is embedded. -/
theorem hasSub_set_timeout_gen (A tail : String) (t : Nat) :
    hasSub (A ++ "set timeout=" ++ Nat.repr t ++ "\n" ++ tail)
      ("set timeout=" ++ Nat.repr t ++ "\n") = true := by
  refine hasSub_of_slices _ _ A.data tail.data ?_
  simp [String.data_append, List.append_assoc]

/-- The EFI loader preamble renders its timeout slot as a
`set timeout=` line. -/
theorem efi_cfg_has_timeout (isolabel : String) (t : Nat) :
    hasSub (get_basic_efi_config isolabel t)
      ("set timeout=" ++ Nat.repr t ++ "\n") = true := by
  unfold get_basic_efi_config
  exact hasSub_set_timeout_gen _ _ t

/-- A successful bootloader configuration's text contains the `timeout`
line rendered for `self._timeout * 10`. -/
theorem bootcfg_has_timeout (c : Config) (bc : BootcfgResult)
    (h : create_bootconfig c = .ok bc) :
    hasSub bc.cfg ("\ntimeout " ++ Nat.repr (c.timeout * 10) ++ "\n") = true := by
  unfold create_bootconfig configure_bootloader configure_syslinux_bootloader at h
  cases hm : find_syslinux_menu c with
  | error e => rw [hm] at h; simp [Bind.bind, Except.bind] at h
  | ok menu =>
    rw [hm] at h
    simp only [Bind.bind, Except.bind] at h
    cases hcf : copy_syslinux_files c menu (find_syslinux_mboot c) with
    | error e => rw [hcf] at h; simp at h
    | ok fs =>
      rw [hcf] at h
      cases hst : get_image_stanzas c with
      | error e => rw [hst] at h; simp at h
      | ok st =>
        rw [hst] at h
        simp only [pure, Except.pure, Except.ok.injEq] at h
        rw [← h]
        iterate 14 apply hasSub_append_left
        exact basic_syslinux_has_timeout _ _ _ _

/-- C10: the two renderers derive their timeout deterministically from the
same configured value `T = self._timeout`: the rendered syslinux (BIOS)
configuration contains a `timeout` directive equal to `10 * T` (syslinux
tenths of a second), while the EFI GRUB renderer emits `set timeout=`
equal to `T` unchanged (seconds). -/
theorem C10_timeout_units (c : Config) (bc : BootcfgResult)
    (h : create_bootconfig c = .ok bc) :
    hasSub bc.cfg ("\ntimeout " ++ Nat.repr (c.timeout * 10) ++ "\n") = true ∧
    hasSub (get_basic_efi_config c.fslabel c.timeout)
      ("set timeout=" ++ Nat.repr c.timeout ++ "\n") = true := by
  constructor
  · exact bootcfg_has_timeout c bc h
  · exact efi_cfg_has_timeout _ _

/-- C10, witness: for the concrete timeout of 10 seconds the rendered
syslinux text contains `timeout 100` and the EFI preamble contains
`set timeout=10`. -/
theorem C10_witness :
    hasSub (bootcfgOf cfgOK).cfg ("\ntimeout " ++ Nat.repr (cfgOK.timeout * 10) ++ "\n") = true ∧
    hasSub (get_basic_efi_config cfgOK.fslabel cfgOK.timeout)
      ("set timeout=" ++ Nat.repr cfgOK.timeout ++ "\n") = true :=
  C10_timeout_units cfgOK (bootcfgOf cfgOK) rfl

end MauiLive
